import Mathlib

/-!
Verification of the BigQuery ingestion loader (`src/products/bigquery.py`).

Python strings are embedded as `List Char`; Python `s.lower()`, `s.startswith(p)`,
`s[6:]`, `s[:-1]` become `List.map Char.toLower`, `take`-prefix comparison,
`List.drop 6` and `List.dropLast`.  Python ints are `Nat`/`Int`; `math.ceil` of a
true division is embedded as exact rational/integer arithmetic.  The stateful
spatial load loop of `BigQuery.load_file_spatial` is embedded as a fold over the
enumerated feature list with an explicit state record; a Python exception that
escapes a block is an `Except.error`/`Option PyError` value.  Calls into the
BigQuery backend (`bq load` via `load_features`) are modelled by an outcome
oracle `flushOutcome : Nat → FlushOutcome` giving the result of the n-th call:
`ok` (command succeeded), `bqError` (a `subprocess.CalledProcessError`, which
`load_features` catches and logs), or `fatal` (any other exception, which
propagates out of `load_features`).
-/

namespace BigQuery

/-- Constant from the source: maximum BigQuery row size in bytes (100 Mb). -/
def BQ_LIMIT_ROW_SIZE : Nat := 104857600

/-- Constant from the source: daily load-job quota per table. -/
def BQ_QUOTA_JOBS_PER_TABLE_PER_DAY : Nat := 1500

/-- Python `str.lower()` on an embedded string. -/
def myLower (s : List Char) : List Char := s.map Char.toLower

/-- The error taxonomy of the source's `BigQueryErrorType` enum. -/
inductive BigQueryErrorType
  | ROW_EXCEEDS_SIZE_LIMIT
  | SCHEMAS_DONT_MATCH
  | GEOMETRY_TYPES_DONT_MATCH
deriving DecidableEq

/-- A `google.cloud.bigquery.SchemaField` as constructed by `get_bq_field`:
a name, a type (`none` embeds Python `None`, which `get_bq_field` passes to
the `SchemaField` constructor when no mapping rule matched), and whether the
mode is `REPEATED`. -/
structure SchemaField where
  name : List Char
  fieldType : Option (List Char)
  repeated : Bool
deriving DecidableEq

/-- The `type_mapping` dictionary of `get_bq_field`: exact (lower-cased)
source type name to BigQuery type. -/
def type_mapping : List (List Char × List Char) :=
  [("double".toList, "FLOAT64".toList),
   ("bool".toList, "BOOL".toList),
   ("date".toList, "DATE".toList),
   ("datetime".toList, "TIMESTAMP".toList),
   ("geometry".toList, "GEOGRAPHY".toList),
   ("blob".toList, "BYTES".toList),
   ("character varying".toList, "STRING".toList),
   ("text".toList, "STRING".toList),
   ("boolean".toList, "BOOL".toList),
   ("timestamp with time zone".toList, "TIMESTAMP".toList),
   ("jsonb".toList, "JSON".toList),
   ("numeric".toList, "FLOAT64".toList),
   ("_varchar".toList, "STRING".toList)]

/-- `BigQuery.get_bq_field`.  An `ARRAY[...]` source type is stripped to its
element type (`field_type[6:][:-1]`) and marks the field `REPEATED`; the
`List[...]` branch of the source only logs a warning and changes nothing; the
exact-name `type_mapping` lookup is then overridden by the `int`/`str`/`float`
prefix rules; the `SchemaField` is always constructed, even with a `None`
type. -/
def get_bq_field (field_name field_type : List Char) : SchemaField :=
  let list_data_type : Bool := decide (field_type.take 6 = "ARRAY[".toList)
  let ft : List Char := if list_data_type then (field_type.drop 6).dropLast else field_type
  let lower : List Char := myLower ft
  let bq_type0 : Option (List Char) :=
    (type_mapping.find? (fun p => decide (p.1 = lower))).map Prod.snd
  let bq_type1 : Option (List Char) :=
    if lower.take 3 = "int".toList then some ("INT64".toList) else bq_type0
  let bq_type2 : Option (List Char) :=
    if lower.take 3 = "str".toList then some ("STRING".toList) else bq_type1
  let bq_type3 : Option (List Char) :=
    if lower.take 5 = "float".toList then some ("FLOAT64".toList) else bq_type2
  { name := field_name, fieldType := bq_type3, repeated := list_data_type }

/-- A source schema as the Python dicts passed around the loader: an ordered
mapping of property field name to source type name, plus the value of the
schema's `geometry` key when that key is present (a fiona schema), `none`
when it is absent (the `{'properties': ...}` wrapper built for PostGIS
sources). -/
structure SourceSchema where
  properties : List (List Char × List Char)
  geometry : Option (List Char)
deriving DecidableEq

/-- `BigQuery.geometry_field_exists`.  For a fiona schema (both a
`properties` and a `geometry` key) it tests `schema['geometry'] != 'None'`.
Otherwise the source scans the dict's values for the literal string
`'user defined type'`; at every call site in the repository the dict passed
in that case is the `{'properties': ...}` wrapper, whose only value is the
nested properties mapping — never equal to a string — so that branch yields
`False`. -/
def geometry_field_exists (schema : SourceSchema) : Bool :=
  match schema.geometry with
  | some g => decide (g ≠ "None".toList)
  | none => false

/-- `BigQuery.get_bq_schema`.  One `get_bq_field` per property in source
order; Python's `if field:` truthiness test is always `True` because
`get_bq_field` always returns a `SchemaField` object, so every field is
appended (the warning branch is unreachable); a `GEOGRAPHY` column named
`geometry_field` is appended at the end when the source schema has a
geometry field. -/
def get_bq_schema (source_schema : SourceSchema) (geometry_field : List Char) :
    List SchemaField :=
  let bq_schema := source_schema.properties.map (fun p => get_bq_field p.1 p.2)
  if geometry_field_exists source_schema then
    bq_schema ++ [{ name := geometry_field, fieldType := some ("GEOGRAPHY".toList),
                    repeated := false }]
  else bq_schema

/-- A fiona feature as the validator sees it: its property keys (values are
never inspected by validation) and the byte length of its serialized
geometry (`get_geometry_size`: the UTF-8 encoded GeoJSON string of the
geometry). -/
structure Feature where
  props : List (List Char)
  geomSize : Nat
deriving DecidableEq

/-- `BigQuery.get_feature_props` restricted to what validation uses: the
property key set of the feature. -/
def get_feature_props (feature : Feature) : List (List Char) := feature.props

/-- `BigQuery.get_geometry_size`: the byte length of the feature's serialized
geometry, carried directly on the embedded feature. -/
def get_geometry_size (feature : Feature) : Nat := feature.geomSize

/-- `BigQuery.schemas_match`: both key-difference sets must be empty, i.e.
the two key sets are equal; values/types are never compared. -/
def schemas_match (keys1 keys2 : List (List Char)) : Bool :=
  keys1.all (fun k => keys2.contains k) && keys2.all (fun k => keys1.contains k)

/-- `BigQuery.validate_feature`.  If the target schema has a geometry field
and the serialized geometry exceeds `BQ_LIMIT_ROW_SIZE`, a
`ROW_EXCEEDS_SIZE_LIMIT` exception is raised (and the schema check is never
reached); otherwise a `SCHEMAS_DONT_MATCH` exception is raised when the
feature's property keys differ from the target schema's property keys; the
geometry-type check of the source is commented out.  `some e` embeds a
raised `BigQueryException` carrying reason `e`; `none` is a normal return. -/
def validate_feature (feature : Feature) (schema : SourceSchema) :
    Option BigQueryErrorType :=
  if geometry_field_exists schema = true ∧ BQ_LIMIT_ROW_SIZE < get_geometry_size feature then
    some BigQueryErrorType.ROW_EXCEEDS_SIZE_LIMIT
  else if schemas_match (get_feature_props feature) (schema.properties.map Prod.fst) = false then
    some BigQueryErrorType.SCHEMAS_DONT_MATCH
  else none

/-- `BigQuery.get_job_size`: `math.ceil(feature_count / 1500)` as natural
ceiling division. -/
def get_job_size (feature_count : Nat) : Nat :=
  (feature_count + BQ_QUOTA_JOBS_PER_TABLE_PER_DAY - 1) / BQ_QUOTA_JOBS_PER_TABLE_PER_DAY

/-- The job-size selection at the top of `BigQuery.load_file_spatial`: a
supplied `job_size` of `-1` means "use the optimum"; an explicit value
smaller than the optimum is overridden by the optimum with a warning
(second component `true`); otherwise the supplied value is used unchanged. -/
def load_file_spatial_job_size (job_size : Int) (feature_count : Nat) : Nat × Bool :=
  let optimum_job_size := get_job_size feature_count
  if job_size ≠ -1 then
    if job_size < (optimum_job_size : Int) then (optimum_job_size, true)
    else (job_size.toNat, false)
  else (optimum_job_size, false)

/-- `math.ceil((feature_count - start_at) / job_size)` from
`load_file_spatial`, as exact integer arithmetic: for a positive divisor,
`⌈a / b⌉ = -((-a) / b)` with Euclidean division (the equivalence with the
rational ceiling is proved below). -/
def job_count (feature_count start_at : Nat) (job_size : Nat) : Int :=
  -((-((feature_count : Int) - (start_at : Int))) / (job_size : Int))

/-- Outcome of one `load_features` call (one `bq load` of a batch):
the command succeeded; the command failed with a
`subprocess.CalledProcessError`, which `load_features` catches and logs; or
some other exception was raised, which propagates out of `load_features`. -/
inductive FlushOutcome
  | ok
  | bqError
  | fatal
deriving DecidableEq

/-- One row written to the `load_failures` quarantine table by the except
branch of the load loop (constant columns `source_path`, `layer_name` and
`table_id` omitted): the zero-based row index, the serialized feature
properties, the `fail_time` timestamp and the `fail_reason`. -/
structure FailureRecord where
  row : Nat
  props : List (List Char)
  failTime : Nat
  failReason : BigQueryErrorType
deriving DecidableEq

/-- The mutable state of one `load_file_spatial` run: the in-memory batch
buffer `features`, the `job` counter, the `invalid_feature_count` and
`inserted_features` counters, the rows appended to the `load_failures`
table, the log of `load_features` calls made so far (batch and outcome),
and the last value taken by the Python loop variable `i` (`none` while the
loop has never run, in which case `i` is unbound). -/
structure SpatialState where
  features : List Feature
  job : Nat
  invalid_feature_count : Nat
  inserted_features : Nat
  failures : List FailureRecord
  flushes : List (List Feature × FlushOutcome)
  lastI : Option Nat
deriving DecidableEq

/-- The initial state set up before the loop of `load_file_spatial`. -/
def initSpatialState : SpatialState :=
  { features := [], job := 1, invalid_feature_count := 0, inserted_features := 0,
    failures := [], flushes := [], lastI := none }

/-- The inputs of one spatial load run: the source schema, the source's
lazy feature sequence, the `start_at` offset, the supplied `job_size`
argument, the `validate_feature` flag, the outcome oracle for successive
`load_features` calls, and the current time used for failure timestamps. -/
structure SpatialConfig where
  schema : SourceSchema
  features : List Feature
  start_at : Nat
  job_size_arg : Int
  validate_flag : Bool
  flushOutcome : Nat → FlushOutcome
  now : Nat

/-- One iteration of the `for i, feature in enumerate(self.src)` loop of
`load_file_spatial`.  Before `start_at` the feature is skipped; a
validation failure increments `invalid_feature_count`, appends one
`load_failures` row and continues; a validated feature is appended to the
buffer and, when `len(features) % job_size == 0`, the batch is flushed via
`load_features`: a caught `bq` CLI error changes nothing relative to
success, while any other exception aborts the loop (`Except.error` carries
the state at the raise, before `inserted_features` is incremented or the
buffer cleared). -/
def load_file_spatial_step (cfg : SpatialConfig) (job_size : Nat) (st : SpatialState)
    (p : Nat × Feature) : Except SpatialState SpatialState :=
  let i := p.1
  let feature := p.2
  if cfg.start_at ≤ i then
    match (if cfg.validate_flag then validate_feature feature cfg.schema else none) with
    | some err =>
        Except.ok { st with
          invalid_feature_count := st.invalid_feature_count + 1,
          failures := st.failures ++
            [{ row := i, props := get_feature_props feature, failTime := cfg.now,
               failReason := err }],
          lastI := some i }
    | none =>
        let fs := st.features ++ [feature]
        if fs.length % job_size = 0 then
          match cfg.flushOutcome st.flushes.length with
          | FlushOutcome.fatal =>
              Except.error { st with
                features := fs,
                flushes := st.flushes ++ [(fs, FlushOutcome.fatal)],
                lastI := some i }
          | o =>
              Except.ok { st with
                features := [],
                flushes := st.flushes ++ [(fs, o)],
                job := st.job + 1,
                inserted_features := st.inserted_features + job_size,
                lastI := some i }
        else Except.ok { st with features := fs, lastI := some i }
  else
    Except.ok { st with lastI := some i }

/-- The whole feature loop of `load_file_spatial` as a monadic fold over the
enumerated source features. -/
def run_feature_loop (cfg : SpatialConfig) (job_size : Nat) :
    Except SpatialState SpatialState :=
  cfg.features.enum.foldlM (load_file_spatial_step cfg job_size) initSpatialState

/-- Terminal status written by `load_file_spatial`'s `finally` block. -/
inductive JobStatus
  | COMPLETED
  | INTERRUPTED
deriving DecidableEq

/-- The Python exceptions that can escape the modelled code: the
`ZeroDivisionError` of the `job_count` line when `job_size` is `0`, the
`NameError` of the `finally` block when the loop variable `i` was never
bound, and an exception propagating out of a `load_features` call. -/
inductive PyError
  | zeroDivisionError
  | nameError
  | flushException
deriving DecidableEq

/-- Result of one `load_file_spatial` call: final state, effective
`job_size` (with the warning flag), `job_count` (`none` when its
computation raised), `status` (`none` when the `finally` block raised
before assigning it), the exception raised inside the `try` block if any,
and the exception that propagates out of `load_file_spatial`. -/
structure SpatialResult where
  state : SpatialState
  job_size : Nat
  job_size_warning : Bool
  job_count : Option Int
  status : Option JobStatus
  tryError : Option PyError
  error : Option PyError
deriving DecidableEq

/-- The `finally` block of `load_file_spatial`: it evaluates
`'COMPLETED' if (i+1==self.feature_count) else 'INTERRUPTED'`.  When the
loop never ran, `i` is unbound and the block raises a `NameError`, which
replaces any exception from the `try` block; otherwise the status is
assigned and the `try` block's exception (if any) propagates. -/
def spatial_finally (feature_count job_size : Nat) (warn : Bool) (jc : Option Int)
    (tryErr : Option PyError) (st : SpatialState) : SpatialResult :=
  match st.lastI with
  | none =>
      { state := st, job_size := job_size, job_size_warning := warn, job_count := jc,
        status := none, tryError := tryErr, error := some PyError.nameError }
  | some i =>
      { state := st, job_size := job_size, job_size_warning := warn, job_count := jc,
        status := some (if i + 1 = feature_count then JobStatus.COMPLETED
                        else JobStatus.INTERRUPTED),
        tryError := tryErr, error := tryErr }

/-- `BigQuery.load_file_spatial`: choose the effective job size, compute
`job_count` (raising `ZeroDivisionError` when the job size is `0`, which
only happens for an empty source), run the feature loop, flush the final
partial batch (which neither clears the buffer nor increments `job`), and
run the `finally` block. -/
def load_file_spatial (cfg : SpatialConfig) : SpatialResult :=
  let feature_count := cfg.features.length
  let jsw := load_file_spatial_job_size cfg.job_size_arg feature_count
  let job_size := jsw.1
  let warn := jsw.2
  if job_size = 0 then
    spatial_finally feature_count job_size warn none (some PyError.zeroDivisionError)
      initSpatialState
  else
    let jc := job_count feature_count cfg.start_at job_size
    match run_feature_loop cfg job_size with
    | Except.error stAbort =>
        spatial_finally feature_count job_size warn (some jc) (some PyError.flushException)
          stAbort
    | Except.ok st =>
        if 0 < st.features.length then
          match cfg.flushOutcome st.flushes.length with
          | FlushOutcome.fatal =>
              spatial_finally feature_count job_size warn (some jc)
                (some PyError.flushException)
                { st with flushes := st.flushes ++ [(st.features, FlushOutcome.fatal)] }
          | o =>
              spatial_finally feature_count job_size warn (some jc) none
                { st with
                  flushes := st.flushes ++ [(st.features, o)],
                  inserted_features := st.inserted_features + st.features.length }
        else
          spatial_finally feature_count job_size warn (some jc) none st

/-- Result of `BigQuery.load_file` on a spatial source: the spatial run's
result, whether `self.src.close()` was reached, whether the `load_jobs`
ledger row was written, and the exception propagating out of `load_file`. -/
structure LoadFileResult where
  spatial : SpatialResult
  src_closed : Bool
  ledger_written : Bool
  error : Option PyError
deriving DecidableEq

/-- `BigQuery.load_file` on a spatial source (the fiona open, feature
count, table creation and row-count calls of the environment succeed).
The body has no `try`: when `load_file_spatial` raises, the ledger insert
and the trailing `self.src.close()` are never reached and the exception
propagates; on a normal return the ledger row is written and the source
collection is closed. -/
def load_file (cfg : SpatialConfig) : LoadFileResult :=
  let r := load_file_spatial cfg
  match r.error with
  | some e => { spatial := r, src_closed := false, ledger_written := false, error := some e }
  | none => { spatial := r, src_closed := true, ledger_written := true, error := none }

/-- A one-property fiona schema (field `a` of type `double`, polygon
geometry), used for the concrete runs below. -/
def schemaOne : SourceSchema :=
  ⟨[("a".toList, "double".toList)], some ("Polygon".toList)⟩

/-- A feature that passes validation against `schemaOne`. -/
def featOK : Feature := ⟨["a".toList], 10⟩

/-- A feature whose property keys are a strict subset of `schemaOne`'s. -/
def featBad : Feature := ⟨[], 10⟩

/-- A feature with mismatched keys and an oversized serialized geometry. -/
def featOversize : Feature := ⟨[], BQ_LIMIT_ROW_SIZE + 1⟩

/-- Two valid features, job size 1, and a `bq` CLI failure on the first
`load_features` call. -/
def cfgC4 : SpatialConfig :=
  { schema := schemaOne, features := [featOK, featOK], start_at := 0, job_size_arg := 1,
    validate_flag := true,
    flushOutcome := fun n => if n = 0 then FlushOutcome.bqError else FlushOutcome.ok,
    now := 7 }

/-- Five features (one invalid), job size 2, every backend call succeeding. -/
def cfgC5 : SpatialConfig :=
  { schema := schemaOne, features := [featOK, featOK, featBad, featOK, featOK],
    start_at := 0, job_size_arg := 2, validate_flag := true,
    flushOutcome := fun _ => FlushOutcome.ok, now := 7 }

/-- The state in which the feature loop of `cfgC5` ends. -/
def stC3 : SpatialState :=
  { features := [], job := 3, invalid_feature_count := 1, inserted_features := 4,
    failures := [{ row := 2, props := [], failTime := 7,
                   failReason := BigQueryErrorType.SCHEMAS_DONT_MATCH }],
    flushes := [([featOK, featOK], FlushOutcome.ok), ([featOK, featOK], FlushOutcome.ok)],
    lastI := some 4 }

/-- A state whose buffer is one feature short of a full batch of 2. -/
def stC5w : SpatialState := { initSpatialState with features := [featOK] }

/-- Two valid features, job size 1, and an uncaught exception on the first
`load_features` call. -/
def cfgC9 : SpatialConfig :=
  { schema := schemaOne, features := [featOK, featOK], start_at := 0, job_size_arg := 1,
    validate_flag := true, flushOutcome := fun _ => FlushOutcome.fatal, now := 7 }

/-- The same run as `cfgC9` with every backend call succeeding. -/
def cfgC9b : SpatialConfig := { cfgC9 with flushOutcome := fun _ => FlushOutcome.ok }

/-- An empty spatial source with the default `job_size` of `-1`. -/
def cfgC10a : SpatialConfig :=
  { schema := schemaOne, features := [], start_at := 0, job_size_arg := -1,
    validate_flag := true, flushOutcome := fun _ => FlushOutcome.ok, now := 7 }

/-- An empty spatial source with a positive supplied `job_size`. -/
def cfgC10b : SpatialConfig := { cfgC10a with job_size_arg := 5 }

/-- A one-feature spatial source with the default `job_size`. -/
def cfgC10c : SpatialConfig := { cfgC10a with features := [featOK] }

end BigQuery

namespace BigQuery

/-- Natural ceiling division `(a + b - 1) / b` agrees with the rational
ceiling of `a / b`. -/
lemma natCeilDiv_cast (a b : Nat) (hb : 0 < b) :
    (((a + b - 1) / b : Nat) : Int) = ⌈(a : ℚ) / (b : ℚ)⌉ := by
  have hb' : (0 : ℚ) < (b : ℚ) := by exact_mod_cast hb
  have hdm := Nat.div_add_mod (a + b - 1) b
  have hml : (a + b - 1) % b < b := Nat.mod_lt _ hb
  set q := (a + b - 1) / b with hq
  set r := (a + b - 1) % b with hr
  have hone : 1 ≤ a + b := by omega
  have hdmz : (b : Int) * q + r = (a : Int) + b - 1 := by
    zify [hone] at hdm
    exact_mod_cast hdm
  have hrz : (r : Int) < b := by exact_mod_cast hml
  have hr0 : (0 : Int) ≤ r := Int.natCast_nonneg r
  symm
  rw [Int.ceil_eq_iff]
  constructor
  · rw [lt_div_iff₀ hb']
    have hZ : (((q : Int) : Int) - 1) * b < (a : Int) := by nlinarith
    exact_mod_cast hZ
  · rw [div_le_iff₀ hb']
    have hZ : (a : Int) ≤ (q : Int) * b := by nlinarith
    exact_mod_cast hZ

/-- For a positive natural divisor, `math.ceil(n / d)` is `-((-n) / d)` with
Euclidean integer division. -/
lemma ceil_int_div (n : Int) (d : Nat) : ⌈((n : ℚ) / (d : ℚ))⌉ = -((-n) / (d : Int)) := by
  rw [← Rat.floor_intCast_div_natCast (-n) d, ← Int.ceil_neg]
  push_cast
  ring_nf

/-- C1: `get_job_size` computes `ceil(feature_count / 1500)` (1500 is the
daily per-table load-job quota), and in `load_file_spatial` an explicit
`job_size` (not `-1`) smaller than this optimum is overridden by the
optimum with a warning, while any other explicit value is used unchanged. -/
theorem C1_job_sizer :
    (∀ fc : Nat, ((get_job_size fc : Nat) : Int) = ⌈(fc : ℚ) / 1500⌉)
  ∧ (∀ (js : Int) (fc : Nat), js ≠ -1 → js < (get_job_size fc : Int) →
      load_file_spatial_job_size js fc = (get_job_size fc, true))
  ∧ (∀ (js : Int) (fc : Nat), js ≠ -1 → (get_job_size fc : Int) ≤ js →
      load_file_spatial_job_size js fc = (js.toNat, false)) := by
  refine ⟨?_, ?_, ?_⟩
  · intro fc
    have h := natCeilDiv_cast fc 1500 (by norm_num)
    simp only [get_job_size, BQ_QUOTA_JOBS_PER_TABLE_PER_DAY]
    rw [h]
    norm_num
  · intro js fc h1 h2
    simp only [load_file_spatial_job_size]
    rw [if_pos h1, if_pos h2]
  · intro js fc h1 h2
    simp only [load_file_spatial_job_size]
    rw [if_pos h1, if_neg (not_lt.mpr h2)]

/-- Witness for C1 at concrete inputs. -/
theorem C1_job_sizer_witness :
    (((get_job_size 17000 : Nat) : Int) = ⌈(17000 : ℚ) / 1500⌉)
  ∧ load_file_spatial_job_size 5 17000 = (get_job_size 17000, true)
  ∧ load_file_spatial_job_size 20 17000 = ((20 : Int).toNat, false) :=
  ⟨C1_job_sizer.1 17000,
   C1_job_sizer.2.1 5 17000 (by decide) (by decide),
   C1_job_sizer.2.2 20 17000 (by decide) (by decide)⟩

/-- C2 counterexample: a feature whose geometry exceeds the row-size limit
and whose keys also differ from the target schema raises
`ROW_EXCEEDS_SIZE_LIMIT`, not `SCHEMAS_DONT_MATCH`, so the claimed
"raises `SCHEMAS_DONT_MATCH` iff the key sets differ" fails. -/
theorem C2_counterexample :
    geometry_field_exists schemaOne = true
  ∧ schemas_match (get_feature_props featOversize) (schemaOne.properties.map Prod.fst) = false
  ∧ validate_feature featOversize schemaOne ≠ some BigQueryErrorType.SCHEMAS_DONT_MATCH
  ∧ validate_feature featOversize schemaOne = some BigQueryErrorType.ROW_EXCEEDS_SIZE_LIMIT := by
  decide

/-- C2 (amended): with a geometry field in the target schema,
`validate_feature` raises `ROW_EXCEEDS_SIZE_LIMIT` iff the serialized
geometry exceeds `BQ_LIMIT_ROW_SIZE`; it raises `SCHEMAS_DONT_MATCH` iff
the size check passed and the property key sets differ; it passes iff the
size check passed and the key sets agree.  Property values/types are never
inspected. -/
theorem C2_validator (f : Feature) (s : SourceSchema)
    (hg : geometry_field_exists s = true) :
    (validate_feature f s = some BigQueryErrorType.ROW_EXCEEDS_SIZE_LIMIT
       ↔ BQ_LIMIT_ROW_SIZE < get_geometry_size f)
  ∧ (validate_feature f s = some BigQueryErrorType.SCHEMAS_DONT_MATCH
       ↔ get_geometry_size f ≤ BQ_LIMIT_ROW_SIZE
         ∧ schemas_match (get_feature_props f) (s.properties.map Prod.fst) = false)
  ∧ (validate_feature f s = none
       ↔ get_geometry_size f ≤ BQ_LIMIT_ROW_SIZE
         ∧ schemas_match (get_feature_props f) (s.properties.map Prod.fst) = true) := by
  by_cases hsz : BQ_LIMIT_ROW_SIZE < get_geometry_size f
  · simp [validate_feature, hg, hsz, Nat.not_le.mpr hsz]
  · by_cases hm : schemas_match (get_feature_props f) (s.properties.map Prod.fst) = false
    · simp [validate_feature, hg, hsz, hm, Nat.not_lt.mp hsz]
    · simp only [Bool.not_eq_false] at hm
      simp [validate_feature, hg, hsz, hm, Nat.not_lt.mp hsz]

/-- Witness for C2 at a concrete feature and schema. -/
theorem C2_validator_witness :
    validate_feature featOK schemaOne = none
      ↔ get_geometry_size featOK ≤ BQ_LIMIT_ROW_SIZE
        ∧ schemas_match (get_feature_props featOK) (schemaOne.properties.map Prod.fst) = true :=
  (C2_validator featOK schemaOne (by decide)).2.2

/-- C7: schema translation is pure, hence deterministic and idempotent —
translating the same unchanged source schema twice yields identical,
identically ordered target column lists.  (The Python function reads only
its arguments and writes only logs, which the embedding reflects by being
a pure function.) -/
theorem C7_deterministic (s1 s2 : SourceSchema) (gf1 gf2 : List Char)
    (hs : s1 = s2) (hg : gf1 = gf2) :
    get_bq_schema s1 gf1 = get_bq_schema s2 gf2 := by
  rw [hs, hg]

/-- Witness for C7 at a concrete schema. -/
theorem C7_deterministic_witness :
    get_bq_schema schemaOne ("geometry".toList) = get_bq_schema schemaOne ("geometry".toList) :=
  C7_deterministic schemaOne schemaOne ("geometry".toList) ("geometry".toList) rfl rfl

end BigQuery

namespace BigQuery

/-- C8: with `start_at ≤ feature_count` and a positive effective job size,
the `job_count` computed by `load_file_spatial` is
`ceil((feature_count - start_at) / job_size)` — also expressible as natural
ceiling division — and consequently
`job_size * job_count ≥ feature_count - start_at`. -/
theorem C8_job_count (fc st js : Nat) (hst : st ≤ fc) (hjs : 1 ≤ js) :
    job_count fc st js = ⌈(((fc : ℚ) - (st : ℚ)) / (js : ℚ))⌉
  ∧ job_count fc st js = (((fc - st + js - 1) / js : Nat) : Int)
  ∧ ((fc : Int) - (st : Int)) ≤ (js : Int) * job_count fc st js := by
  have hjs0 : 0 < js := hjs
  have hjq : (0 : ℚ) < (js : ℚ) := by exact_mod_cast hjs0
  have hceil : job_count fc st js = ⌈(((fc : ℚ) - (st : ℚ)) / (js : ℚ))⌉ := by
    unfold job_count
    rw [show ((fc : ℚ) - (st : ℚ)) = ((((fc : Int) - (st : Int)) : Int) : ℚ) from by
      push_cast
      ring]
    exact (ceil_int_div ((fc : Int) - (st : Int)) js).symm
  refine ⟨hceil, ?_, ?_⟩
  · rw [hceil, show ((fc : ℚ) - (st : ℚ)) = (((fc - st : Nat)) : ℚ) from by
      rw [Nat.cast_sub hst]]
    rw [← natCeilDiv_cast (fc - st) js hjs0]
  · have h1 : ((fc : ℚ) - (st : ℚ)) ≤ ((job_count fc st js : Int) : ℚ) * (js : ℚ) := by
      rw [hceil]
      exact (div_le_iff₀ hjq).mp (Int.le_ceil _)
    have h2 : ((fc : Int) - (st : Int)) ≤ (job_count fc st js) * (js : Int) := by
      exact_mod_cast h1
    linarith [h2]

/-- Witness for C8 at the concrete inputs from the spec's example. -/
theorem C8_job_count_witness :
    job_count 17000 0 12 = (((17000 - 0 + 12 - 1) / 12 : Nat) : Int)
  ∧ ((17000 : Int) - (0 : Int)) ≤ (12 : Int) * job_count 17000 0 12 :=
  ⟨(C8_job_count 17000 0 12 (by decide) (by decide)).2.1,
   (C8_job_count 17000 0 12 (by decide) (by decide)).2.2⟩

end BigQuery

namespace BigQuery

lemma take3_of_take5_float (l : List Char) (h : l.take 5 = "float".toList) :
    l.take 3 = "flo".toList := by
  have h3 := congrArg (List.take 3) h
  rw [List.take_take] at h3
  simpa using h3

/-- C6 counterexample: a property whose source type (`foo`) matches no
translation rule is not dropped from the output — `get_bq_schema` keeps a
column for it whose type is `None`, because `get_bq_field` always returns
a (truthy) `SchemaField` object and the warning branch never runs. -/
theorem C6_counterexample :
    get_bq_schema ⟨[("f".toList, "foo".toList)], none⟩ ("geometry".toList)
      = [{ name := "f".toList, fieldType := none, repeated := false }]
  ∧ get_bq_schema ⟨[("f".toList, "foo".toList)], none⟩ ("geometry".toList) ≠ [] := by
  decide

/-- C6 (amended): `get_bq_schema` produces one target column per property
field in source order — including, contrary to the claim, a column with no
type for fields matching no rule, which are never dropped — translated by
`get_bq_field` with, in priority, the `int`/`str`/`float` prefix overrides,
then the exact-name table; `ARRAY[...]` fields become a `REPEATED` column
of the element's translated type; and a schema with a geometry field gets
a single `GEOGRAPHY` column appended at the end. -/
theorem C6_schema_translation :
    (∀ (s : SourceSchema) (gf : List Char),
       (get_bq_schema s gf).length
         = s.properties.length + (if geometry_field_exists s then 1 else 0))
  ∧ (∀ (s : SourceSchema) (gf : List Char) (i : Nat) (hi : i < s.properties.length),
       (get_bq_schema s gf)[i]?
         = some (get_bq_field (s.properties.get ⟨i, hi⟩).1 (s.properties.get ⟨i, hi⟩).2))
  ∧ (∀ (s : SourceSchema) (gf : List Char), geometry_field_exists s = true →
       (get_bq_schema s gf).getLast?
         = some { name := gf, fieldType := some ("GEOGRAPHY".toList), repeated := false })
  ∧ (∀ n t, (myLower t).take 3 = "int".toList → t.take 6 ≠ "ARRAY[".toList →
       (get_bq_field n t).fieldType = some ("INT64".toList))
  ∧ (∀ n t, (myLower t).take 3 = "str".toList → t.take 6 ≠ "ARRAY[".toList →
       (get_bq_field n t).fieldType = some ("STRING".toList))
  ∧ (∀ n t, (myLower t).take 5 = "float".toList → t.take 6 ≠ "ARRAY[".toList →
       (get_bq_field n t).fieldType = some ("FLOAT64".toList))
  ∧ (∀ n t, t.take 6 ≠ "ARRAY[".toList →
       (myLower t).take 3 ≠ "int".toList → (myLower t).take 3 ≠ "str".toList →
       (myLower t).take 5 ≠ "float".toList →
       (get_bq_field n t).fieldType
         = (type_mapping.find? (fun p => decide (p.1 = myLower t))).map Prod.snd)
  ∧ (∀ n t, t.take 6 ≠ "ARRAY[".toList →
       get_bq_field n ("ARRAY[".toList ++ t ++ "]".toList)
         = { get_bq_field n t with repeated := true }) := by
  refine ⟨?_, ?_, ?_, ?_, ?_, ?_, ?_, ?_⟩
  · intro s gf
    by_cases hg : geometry_field_exists s <;>
      simp [get_bq_schema, hg]
  · intro s gf i hi
    have hmap : (s.properties.map (fun p => get_bq_field p.1 p.2))[i]?
        = some (get_bq_field (s.properties.get ⟨i, hi⟩).1 (s.properties.get ⟨i, hi⟩).2) := by
      rw [List.getElem?_map, List.getElem?_eq_getElem hi]
      rfl
    by_cases hg : geometry_field_exists s
    · simp only [get_bq_schema, hg, if_true]
      rw [List.getElem?_append_left (by simpa using hi)]
      exact hmap
    · simp only [get_bq_schema, hg, if_false]
      exact hmap
  · intro s gf hg
    simp only [get_bq_schema, hg, if_true]
    exact List.getLast?_concat _
  · intro n t hint hA
    have hA' : t.take 6 ≠ ['A', 'R', 'R', 'A', 'Y', '['] := by simpa using hA
    have hint' : (myLower t).take 3 = ['i', 'n', 't'] := by simpa using hint
    have hstr' : (myLower t).take 3 ≠ ['s', 't', 'r'] := by
      rw [hint']
      decide
    have hfloat' : (myLower t).take 5 ≠ ['f', 'l', 'o', 'a', 't'] := by
      intro h5
      rw [take3_of_take5_float _ (by simpa using h5)] at hint'
      exact absurd hint' (by decide)
    simp [get_bq_field, hA', hint', hstr', hfloat']
  · intro n t hstr hA
    have hA' : t.take 6 ≠ ['A', 'R', 'R', 'A', 'Y', '['] := by simpa using hA
    have hstr' : (myLower t).take 3 = ['s', 't', 'r'] := by simpa using hstr
    have hint' : (myLower t).take 3 ≠ ['i', 'n', 't'] := by
      rw [hstr']
      decide
    have hfloat' : (myLower t).take 5 ≠ ['f', 'l', 'o', 'a', 't'] := by
      intro h5
      rw [take3_of_take5_float _ (by simpa using h5)] at hstr'
      exact absurd hstr' (by decide)
    simp [get_bq_field, hA', hint', hstr', hfloat']
  · intro n t hfloat hA
    have hA' : t.take 6 ≠ ['A', 'R', 'R', 'A', 'Y', '['] := by simpa using hA
    have hfloat' : (myLower t).take 5 = ['f', 'l', 'o', 'a', 't'] := by simpa using hfloat
    have h3 := take3_of_take5_float _ hfloat
    have hint' : (myLower t).take 3 ≠ ['i', 'n', 't'] := by
      rw [h3]
      decide
    have hstr' : (myLower t).take 3 ≠ ['s', 't', 'r'] := by
      rw [h3]
      decide
    simp [get_bq_field, hA', hint', hstr', hfloat']
  · intro n t hA hint hstr hfloat
    have hA' : t.take 6 ≠ ['A', 'R', 'R', 'A', 'Y', '['] := by simpa using hA
    have hint' : (myLower t).take 3 ≠ ['i', 'n', 't'] := by simpa using hint
    have hstr' : (myLower t).take 3 ≠ ['s', 't', 'r'] := by simpa using hstr
    have hfloat' : (myLower t).take 5 ≠ ['f', 'l', 'o', 'a', 't'] := by simpa using hfloat
    simp [get_bq_field, hA', hint', hstr', hfloat']
  · intro n t hA
    have hA' : t.take 6 ≠ ['A', 'R', 'R', 'A', 'Y', '['] := by simpa using hA
    have h6 : ("ARRAY[".toList).length = 6 := rfl
    have hpre : ("ARRAY[".toList ++ t ++ "]".toList).take 6 = "ARRAY[".toList := by
      rw [List.append_assoc, ← h6, List.take_left]
    have hdrop : ("ARRAY[".toList ++ t ++ "]".toList).drop 6 = t ++ "]".toList := by
      rw [List.append_assoc, ← h6, List.drop_left]
    have hlast : (t ++ "]".toList).dropLast = t := List.dropLast_concat
    simp [get_bq_field, hpre, hdrop, hlast, hA']

end BigQuery

namespace BigQuery

/-- Witness for C6 at concrete schemas and field types. -/
theorem C6_schema_translation_witness :
    ((get_bq_schema schemaOne ("geometry".toList)).length
      = schemaOne.properties.length + (if geometry_field_exists schemaOne then 1 else 0))
  ∧ (get_bq_schema schemaOne ("geometry".toList))[0]?
      = some (get_bq_field (schemaOne.properties.get ⟨0, by decide⟩).1
          (schemaOne.properties.get ⟨0, by decide⟩).2)
  ∧ (get_bq_schema schemaOne ("geometry".toList)).getLast?
      = some { name := "geometry".toList, fieldType := some ("GEOGRAPHY".toList),
               repeated := false }
  ∧ (get_bq_field ("x".toList) ("int:32".toList)).fieldType = some ("INT64".toList)
  ∧ (get_bq_field ("x".toList) ("str".toList)).fieldType = some ("STRING".toList)
  ∧ (get_bq_field ("x".toList) ("Float64".toList)).fieldType = some ("FLOAT64".toList)
  ∧ (get_bq_field ("x".toList) ("double".toList)).fieldType
      = (type_mapping.find? (fun p => decide (p.1 = myLower ("double".toList)))).map Prod.snd
  ∧ get_bq_field ("x".toList) ("ARRAY[".toList ++ "_varchar".toList ++ "]".toList)
      = { get_bq_field ("x".toList) ("_varchar".toList) with repeated := true } :=
  ⟨C6_schema_translation.1 schemaOne ("geometry".toList),
   C6_schema_translation.2.1 schemaOne ("geometry".toList) 0 (by decide),
   C6_schema_translation.2.2.1 schemaOne ("geometry".toList) (by decide),
   C6_schema_translation.2.2.2.1 ("x".toList) ("int:32".toList) (by decide) (by decide),
   C6_schema_translation.2.2.2.2.1 ("x".toList) ("str".toList) (by decide) (by decide),
   C6_schema_translation.2.2.2.2.2.1 ("x".toList) ("Float64".toList) (by decide) (by decide),
   C6_schema_translation.2.2.2.2.2.2.1 ("x".toList) ("double".toList) (by decide) (by decide)
     (by decide) (by decide),
   C6_schema_translation.2.2.2.2.2.2.2 ("x".toList) ("_varchar".toList) (by decide)⟩

lemma step_cases (cfg : SpatialConfig) (js : Nat) (st st1 : SpatialState) (p : Nat × Feature)
    (h : load_file_spatial_step cfg js st p = Except.ok st1) :
    (¬ cfg.start_at ≤ p.1 ∧ st1 = { st with lastI := some p.1 })
  ∨ (cfg.start_at ≤ p.1 ∧ ∃ err, st1 = { st with
        invalid_feature_count := st.invalid_feature_count + 1,
        failures := st.failures ++ [{ row := p.1, props := get_feature_props p.2,
                                      failTime := cfg.now, failReason := err }],
        lastI := some p.1 })
  ∨ (cfg.start_at ≤ p.1 ∧ (st.features ++ [p.2]).length % js = 0 ∧ ∃ o, st1 = { st with
        features := [],
        flushes := st.flushes ++ [(st.features ++ [p.2], o)],
        job := st.job + 1,
        inserted_features := st.inserted_features + js,
        lastI := some p.1 })
  ∨ (cfg.start_at ≤ p.1 ∧ (st.features ++ [p.2]).length % js ≠ 0 ∧
        st1 = { st with features := st.features ++ [p.2], lastI := some p.1 }) := by
  simp only [load_file_spatial_step] at h
  by_cases hstart : cfg.start_at ≤ p.1
  · rw [if_pos hstart] at h
    cases hv : (if cfg.validate_flag then validate_feature p.2 cfg.schema else none) with
    | some err =>
      rw [hv] at h
      injection h with h
      exact Or.inr (Or.inl ⟨hstart, err, h.symm⟩)
    | none =>
      rw [hv] at h
      by_cases hmod : (st.features ++ [p.2]).length % js = 0
      · rw [if_pos hmod] at h
        cases hfo : cfg.flushOutcome st.flushes.length with
        | fatal =>
          rw [hfo] at h
          exact absurd h (by simp)
        | ok =>
          rw [hfo] at h
          injection h with h
          exact Or.inr (Or.inr (Or.inl ⟨hstart, hmod, FlushOutcome.ok, h.symm⟩))
        | bqError =>
          rw [hfo] at h
          injection h with h
          exact Or.inr (Or.inr (Or.inl ⟨hstart, hmod, FlushOutcome.bqError, h.symm⟩))
      · rw [if_neg hmod] at h
        injection h with h
        exact Or.inr (Or.inr (Or.inr ⟨hstart, hmod, h.symm⟩))
  · rw [if_neg hstart] at h
    injection h with h
    exact Or.inl ⟨hstart, h.symm⟩

lemma step_preserves_invfail (cfg : SpatialConfig) (js : Nat) (st st1 : SpatialState)
    (p : Nat × Feature)
    (h : load_file_spatial_step cfg js st p = Except.ok st1)
    (h0 : st.invalid_feature_count = st.failures.length) :
    st1.invalid_feature_count = st1.failures.length := by
  rcases step_cases cfg js st st1 p h with ⟨-, rfl⟩ | ⟨-, err, rfl⟩ | ⟨-, -, o, rfl⟩ | ⟨-, -, rfl⟩ <;>
    simp [h0]

lemma foldlM_preserves_invfail (cfg : SpatialConfig) (js : Nat) :
    ∀ (l : List (Nat × Feature)) (st st' : SpatialState),
      l.foldlM (load_file_spatial_step cfg js) st = Except.ok st' →
      st.invalid_feature_count = st.failures.length →
      st'.invalid_feature_count = st'.failures.length := by
  intro l
  induction l with
  | nil =>
    intro st st' h h0
    simp only [List.foldlM_nil] at h
    injection h with h
    subst h
    exact h0
  | cons p l ih =>
    intro st st' h h0
    rw [List.foldlM_cons] at h
    cases hstep : load_file_spatial_step cfg js st p with
    | error e =>
      rw [hstep] at h
      exact Except.noConfusion h
    | ok st1 =>
      rw [hstep] at h
      exact ih st1 st' h (step_preserves_invfail cfg js st st1 p hstep h0)


lemma step_conservation (cfg : SpatialConfig) (js : Nat) (st st1 : SpatialState)
    (p : Nat × Feature) (h0 : cfg.start_at = 0) (hlen : st.features.length < js)
    (h : load_file_spatial_step cfg js st p = Except.ok st1) :
    st1.inserted_features + st1.invalid_feature_count + st1.features.length
        = st.inserted_features + st.invalid_feature_count + st.features.length + 1
      ∧ st1.features.length < js := by
  rcases step_cases cfg js st st1 p h with
    ⟨hs, rfl⟩ | ⟨-, err, rfl⟩ | ⟨-, hmod, o, rfl⟩ | ⟨-, hmod, rfl⟩
  · exact absurd (by omega : cfg.start_at ≤ p.1) hs
  · exact ⟨by simp; omega, by simpa using hlen⟩
  · have hfs : (st.features ++ [p.2]).length = st.features.length + 1 := by simp
    rw [hfs] at hmod
    have hdvd := Nat.le_of_dvd (by omega) (Nat.dvd_of_mod_eq_zero hmod)
    exact ⟨by simp; omega, by simp; omega⟩
  · have hfs : (st.features ++ [p.2]).length = st.features.length + 1 := by simp
    have hne : ¬(st.features.length + 1 = js) := by
      intro he
      rw [hfs, he] at hmod
      exact hmod (Nat.mod_self js)
    exact ⟨by simp; omega, by simp; omega⟩

lemma foldlM_conservation (cfg : SpatialConfig) (js : Nat) (h0 : cfg.start_at = 0) :
    ∀ (l : List (Nat × Feature)) (st st' : SpatialState),
      st.features.length < js →
      l.foldlM (load_file_spatial_step cfg js) st = Except.ok st' →
      st'.inserted_features + st'.invalid_feature_count + st'.features.length
          = st.inserted_features + st.invalid_feature_count + st.features.length + l.length
        ∧ st'.features.length < js := by
  intro l
  induction l with
  | nil =>
    intro st st' hlen h
    simp only [List.foldlM_nil] at h
    injection h with h
    subst h
    exact ⟨by simp, hlen⟩
  | cons p l ih =>
    intro st st' hlen h
    rw [List.foldlM_cons] at h
    cases hstep : load_file_spatial_step cfg js st p with
    | error e =>
      rw [hstep] at h
      exact Except.noConfusion h
    | ok st1 =>
      rw [hstep] at h
      obtain ⟨he1, hl1⟩ := step_conservation cfg js st st1 p h0 hlen hstep
      obtain ⟨he2, hl2⟩ := ih st1 st' hl1 h
      refine ⟨?_, hl2⟩
      rw [he2, he1]
      simp
      omega

lemma step_ok_of_no_fatal (cfg : SpatialConfig) (js : Nat) (st : SpatialState)
    (p : Nat × Feature)
    (hnf : cfg.flushOutcome st.flushes.length ≠ FlushOutcome.fatal) :
    ∃ st1, load_file_spatial_step cfg js st p = Except.ok st1 := by
  simp only [load_file_spatial_step]
  by_cases hstart : cfg.start_at ≤ p.1
  · rw [if_pos hstart]
    cases hv : (if cfg.validate_flag then validate_feature p.2 cfg.schema else none) with
    | some err => exact ⟨_, rfl⟩
    | none =>
      by_cases hmod : (st.features ++ [p.2]).length % js = 0
      · rw [if_pos hmod]
        cases hfo : cfg.flushOutcome st.flushes.length with
        | fatal => exact absurd hfo hnf
        | ok => exact ⟨_, rfl⟩
        | bqError => exact ⟨_, rfl⟩
      · rw [if_neg hmod]
        exact ⟨_, rfl⟩
  · rw [if_neg hstart]
    exact ⟨_, rfl⟩

lemma foldlM_ok_of_no_fatal (cfg : SpatialConfig) (js : Nat)
    (hnf : ∀ n, cfg.flushOutcome n ≠ FlushOutcome.fatal) :
    ∀ (l : List (Nat × Feature)) (st : SpatialState),
      ∃ st', l.foldlM (load_file_spatial_step cfg js) st = Except.ok st' := by
  intro l
  induction l with
  | nil =>
    intro st
    exact ⟨st, rfl⟩
  | cons p l ih =>
    intro st
    obtain ⟨st1, h1⟩ := step_ok_of_no_fatal cfg js st p (hnf _)
    obtain ⟨st', h'⟩ := ih st1
    refine ⟨st', ?_⟩
    rw [List.foldlM_cons, h1]
    exact h'

lemma spatial_finally_state (fc js : Nat) (w : Bool) (jc : Option Int)
    (te : Option PyError) (st : SpatialState) :
    (spatial_finally fc js w jc te st).state = st := by
  unfold spatial_finally
  cases st.lastI <;> rfl

lemma spatial_finally_tryError (fc js : Nat) (w : Bool) (jc : Option Int)
    (te : Option PyError) (st : SpatialState) :
    (spatial_finally fc js w jc te st).tryError = te := by
  unfold spatial_finally
  cases st.lastI <;> rfl

lemma spatial_finally_error (fc js : Nat) (w : Bool) (jc : Option Int)
    (te : Option PyError) (st : SpatialState) :
    (spatial_finally fc js w jc te st).error = te
  ∨ (spatial_finally fc js w jc te st).error = some PyError.nameError := by
  unfold spatial_finally
  cases st.lastI
  · exact Or.inr rfl
  · exact Or.inl rfl

/-- C3: a feature that fails validation increments `invalid_feature_count`
by exactly one, writes exactly one quarantine record (with the timestamp
and the failing reason) to the `load_failures` sink, leaves the batch
buffer and `inserted_features` untouched, and iteration continues
(`Except.ok`); moreover along any completed loop every invalid feature
produced exactly one quarantine record (`invalid_feature_count` equals the
number of failure records). -/
theorem C3_invalid_feature_handling :
    (∀ (cfg : SpatialConfig) (js : Nat) (st : SpatialState) (i : Nat) (f : Feature)
        (err : BigQueryErrorType),
      cfg.start_at ≤ i → cfg.validate_flag = true →
      validate_feature f cfg.schema = some err →
      load_file_spatial_step cfg js st (i, f) = Except.ok { st with
        invalid_feature_count := st.invalid_feature_count + 1,
        failures := st.failures ++ [{ row := i, props := get_feature_props f,
                                      failTime := cfg.now, failReason := err }],
        lastI := some i })
  ∧ (∀ (cfg : SpatialConfig) (js : Nat) (st' : SpatialState),
      run_feature_loop cfg js = Except.ok st' →
      st'.invalid_feature_count = st'.failures.length) := by
  constructor
  · intro cfg js st i f err h1 h2 h3
    simp [load_file_spatial_step, h1, h2, h3]
  · intro cfg js st' h
    exact foldlM_preserves_invfail cfg js cfg.features.enum initSpatialState st' h rfl

/-- Witness for C3: the invalid third feature of the `cfgC5` run. -/
theorem C3_invalid_feature_handling_witness :
    load_file_spatial_step cfgC5 2 initSpatialState (2, featBad) = Except.ok
      { initSpatialState with
        invalid_feature_count := initSpatialState.invalid_feature_count + 1,
        failures := initSpatialState.failures ++
          [{ row := 2, props := get_feature_props featBad, failTime := cfgC5.now,
             failReason := BigQueryErrorType.SCHEMAS_DONT_MATCH }],
        lastI := some 2 }
  ∧ stC3.invalid_feature_count = stC3.failures.length :=
  ⟨C3_invalid_feature_handling.1 cfgC5 2 initSpatialState 2 featBad
      BigQueryErrorType.SCHEMAS_DONT_MATCH (by decide) (by decide) (by decide),
   C3_invalid_feature_handling.2 cfgC5 2 stC3 (by rfl)⟩


/-- C4 counterexample: in the `cfgC4` run the first `bq load` call fails
(`CalledProcessError`), yet the Load Job does not end `INTERRUPTED`: the
error is caught and logged inside `load_features`, iteration continues,
the failed batch is still counted among `inserted_features`, and the job
finishes with status `COMPLETED` and no exception. -/
theorem C4_counterexample :
    (load_file_spatial cfgC4).state.flushes.map Prod.snd
      = [FlushOutcome.bqError, FlushOutcome.ok]
  ∧ (load_file_spatial cfgC4).status = some JobStatus.COMPLETED
  ∧ (load_file_spatial cfgC4).status ≠ some JobStatus.INTERRUPTED
  ∧ (load_file_spatial cfgC4).error = none
  ∧ (load_file_spatial cfgC4).state.inserted_features = 2 := by
  decide

/-- C4 (amended): a failed `bq load` (a `CalledProcessError`) is caught and
logged inside `load_features` and does not abort the Load Job — the step
behaves exactly like a successful flush, including counting the lost batch
in `inserted_features`; only an exception that is not a CLI failure aborts
the current job, and then all previously flushed batches remain in the
flush history with at most the one in-flight batch lost; when no such
exception occurs, no flush failure ever raises out of
`load_file_spatial`. -/
theorem C4_bulk_ingest_failure :
    (∀ (cfg : SpatialConfig) (js : Nat) (st : SpatialState) (i : Nat) (f : Feature),
      cfg.start_at ≤ i →
      (if cfg.validate_flag then validate_feature f cfg.schema else none) = none →
      (st.features.length + 1) % js = 0 →
      cfg.flushOutcome st.flushes.length = FlushOutcome.bqError →
      load_file_spatial_step cfg js st (i, f) = Except.ok { st with
        features := [],
        flushes := st.flushes ++ [(st.features ++ [f], FlushOutcome.bqError)],
        job := st.job + 1,
        inserted_features := st.inserted_features + js,
        lastI := some i })
  ∧ (∀ (cfg : SpatialConfig) (js : Nat) (st : SpatialState) (i : Nat) (f : Feature),
      cfg.start_at ≤ i →
      (if cfg.validate_flag then validate_feature f cfg.schema else none) = none →
      (st.features.length + 1) % js = 0 →
      cfg.flushOutcome st.flushes.length = FlushOutcome.fatal →
      load_file_spatial_step cfg js st (i, f) = Except.error { st with
        features := st.features ++ [f],
        flushes := st.flushes ++ [(st.features ++ [f], FlushOutcome.fatal)],
        lastI := some i })
  ∧ (∀ cfg : SpatialConfig, (∀ n, cfg.flushOutcome n ≠ FlushOutcome.fatal) →
      (load_file_spatial cfg).tryError ≠ some PyError.flushException
      ∧ (load_file_spatial cfg).error ≠ some PyError.flushException) := by
  refine ⟨?_, ?_, ?_⟩
  · intro cfg js st i f h1 h2 h3 h4
    simp [load_file_spatial_step, h1, h2, h3, h4]
  · intro cfg js st i f h1 h2 h3 h4
    simp [load_file_spatial_step, h1, h2, h3, h4]
  · intro cfg hnf
    simp only [load_file_spatial]
    by_cases h0 : (load_file_spatial_job_size cfg.job_size_arg cfg.features.length).1 = 0
    · rw [if_pos h0]
      constructor
      · rw [spatial_finally_tryError]
        simp
      · rcases spatial_finally_error cfg.features.length _ _ _
          (some PyError.zeroDivisionError) initSpatialState with he | he <;>
          rw [he] <;> simp
    · rw [if_neg h0]
      obtain ⟨st', hloop⟩ := foldlM_ok_of_no_fatal cfg
        (load_file_spatial_job_size cfg.job_size_arg cfg.features.length).1 hnf
        cfg.features.enum initSpatialState
      have hloop' : run_feature_loop cfg
          (load_file_spatial_job_size cfg.job_size_arg cfg.features.length).1
          = Except.ok st' := hloop
      simp only [hloop']
      by_cases hb : 0 < st'.features.length
      · rw [if_pos hb]
        cases hfo : cfg.flushOutcome st'.flushes.length with
        | fatal => exact absurd hfo (hnf _)
        | ok =>
          dsimp only
          constructor
          · rw [spatial_finally_tryError]
            simp
          · rcases spatial_finally_error cfg.features.length _ _ _ none _ with he | he <;>
              rw [he] <;> simp
        | bqError =>
          dsimp only
          constructor
          · rw [spatial_finally_tryError]
            simp
          · rcases spatial_finally_error cfg.features.length _ _ _ none _ with he | he <;>
              rw [he] <;> simp
      · rw [if_neg hb]
        constructor
        · rw [spatial_finally_tryError]
          simp
        · rcases spatial_finally_error cfg.features.length _ _ _ none st' with he | he <;>
            rw [he] <;> simp

/-- Witness for C4 at a concrete state: a full batch whose `bq load` call
fails is swallowed, and the all-successful `cfgC5` run raises nothing. -/
theorem C4_bulk_ingest_failure_witness :
    load_file_spatial_step cfgC4 1 initSpatialState (0, featOK) = Except.ok
      { initSpatialState with
        features := [],
        flushes := initSpatialState.flushes ++
          [(initSpatialState.features ++ [featOK], FlushOutcome.bqError)],
        job := initSpatialState.job + 1,
        inserted_features := initSpatialState.inserted_features + 1,
        lastI := some 0 }
  ∧ load_file_spatial_step cfgC9 1 initSpatialState (0, featOK) = Except.error
      { initSpatialState with
        features := initSpatialState.features ++ [featOK],
        flushes := initSpatialState.flushes ++
          [(initSpatialState.features ++ [featOK], FlushOutcome.fatal)],
        lastI := some 0 }
  ∧ (load_file_spatial cfgC5).tryError ≠ some PyError.flushException :=
  ⟨C4_bulk_ingest_failure.1 cfgC4 1 initSpatialState 0 featOK (by decide) (by decide)
      (by decide) (by decide),
   C4_bulk_ingest_failure.2.1 cfgC9 1 initSpatialState 0 featOK (by decide) (by decide)
      (by decide) (by decide),
   (C4_bulk_ingest_failure.2.2 cfgC5 (fun n => by simp [cfgC5])).1⟩


/-- C5: in a `start_at = 0` spatial run that reaches stream end (no
exception propagates), each full-batch flush advances `inserted_features`
by the batch size and clears the buffer, the final possibly-partial batch
is flushed, and at the end
`inserted_features + invalid_feature_count = feature_count`; with the
spec's numbers, 17,000 features under quota 1,500 give `job_size = 12`
and `job_count = 1417`. -/
theorem C5_full_run :
    (∀ cfg : SpatialConfig, cfg.start_at = 0 → (load_file_spatial cfg).error = none →
      (load_file_spatial cfg).state.inserted_features
          + (load_file_spatial cfg).state.invalid_feature_count = cfg.features.length
      ∧ (0 < (load_file_spatial cfg).state.features.length →
          ∃ o, (load_file_spatial cfg).state.flushes.getLast?
              = some ((load_file_spatial cfg).state.features, o)))
  ∧ (∀ (cfg : SpatialConfig) (js : Nat) (st : SpatialState) (i : Nat) (f : Feature),
      cfg.start_at ≤ i →
      (if cfg.validate_flag then validate_feature f cfg.schema else none) = none →
      (st.features.length + 1) % js = 0 →
      cfg.flushOutcome st.flushes.length ≠ FlushOutcome.fatal →
      ∃ o, load_file_spatial_step cfg js st (i, f) = Except.ok { st with
        features := [],
        flushes := st.flushes ++ [(st.features ++ [f], o)],
        job := st.job + 1,
        inserted_features := st.inserted_features + js,
        lastI := some i })
  ∧ get_job_size 17000 = 12
  ∧ job_count 17000 0 12 = 1417 := by
  refine ⟨?_, ?_, by decide, by decide⟩
  · intro cfg h0 herr
    simp only [load_file_spatial] at herr ⊢
    by_cases hz : (load_file_spatial_job_size cfg.job_size_arg cfg.features.length).1 = 0
    · rw [if_pos hz] at herr
      exfalso
      rcases spatial_finally_error cfg.features.length _ _ _
          (some PyError.zeroDivisionError) initSpatialState with he | he <;>
        rw [he] at herr <;> simp at herr
    · rw [if_neg hz] at herr ⊢
      cases hloop : run_feature_loop cfg
          (load_file_spatial_job_size cfg.job_size_arg cfg.features.length).1 with
      | error stA =>
        simp only [hloop] at herr
        exfalso
        rcases spatial_finally_error cfg.features.length _ _ _
            (some PyError.flushException) stA with he | he <;>
          rw [he] at herr <;> simp at herr
      | ok st' =>
        simp only [hloop] at herr ⊢
        have hcons := foldlM_conservation cfg
          (load_file_spatial_job_size cfg.job_size_arg cfg.features.length).1 h0
          cfg.features.enum initSpatialState st'
          (by simpa [initSpatialState] using Nat.pos_of_ne_zero hz) hloop
        have htot : st'.inserted_features + st'.invalid_feature_count
            + st'.features.length = cfg.features.length := by
          simpa [initSpatialState] using hcons.1
        by_cases hb : 0 < st'.features.length
        · rw [if_pos hb] at herr ⊢
          cases hfo : cfg.flushOutcome st'.flushes.length with
          | fatal =>
            rw [hfo] at herr
            dsimp only at herr
            exfalso
            rcases spatial_finally_error cfg.features.length _ _ _
                (some PyError.flushException) _ with he | he <;>
              rw [he] at herr <;> simp at herr
          | ok =>
            dsimp only
            rw [spatial_finally_state]
            constructor
            · simp
              omega
            · intro hpos
              exact ⟨FlushOutcome.ok, by simp [List.getLast?_concat]⟩
          | bqError =>
            dsimp only
            rw [spatial_finally_state]
            constructor
            · simp
              omega
            · intro hpos
              exact ⟨FlushOutcome.bqError, by simp [List.getLast?_concat]⟩
        · rw [if_neg hb] at herr ⊢
          rw [spatial_finally_state]
          constructor
          · omega
          · intro hpos
            exact absurd hpos hb
  · intro cfg js st i f h1 h2 h3 h4
    cases hfo : cfg.flushOutcome st.flushes.length with
    | fatal => exact absurd hfo h4
    | ok => exact ⟨FlushOutcome.ok, by simp [load_file_spatial_step, h1, h2, h3, hfo]⟩
    | bqError => exact ⟨FlushOutcome.bqError, by simp [load_file_spatial_step, h1, h2, h3, hfo]⟩

/-- Witness for C5: the `cfgC5` run (5 features, one invalid, job size 2)
and a concrete full-batch flush step. -/
theorem C5_full_run_witness :
    ((load_file_spatial cfgC5).state.inserted_features
        + (load_file_spatial cfgC5).state.invalid_feature_count = cfgC5.features.length
      ∧ (0 < (load_file_spatial cfgC5).state.features.length →
          ∃ o, (load_file_spatial cfgC5).state.flushes.getLast?
              = some ((load_file_spatial cfgC5).state.features, o)))
  ∧ (∃ o, load_file_spatial_step cfgC5 2 stC5w (1, featOK) = Except.ok { stC5w with
      features := [],
      flushes := stC5w.flushes ++ [(stC5w.features ++ [featOK], o)],
      job := stC5w.job + 1,
      inserted_features := stC5w.inserted_features + 2,
      lastI := some 1 }) :=
  ⟨C5_full_run.1 cfgC5 (by decide) (by rfl),
   C5_full_run.2.1 cfgC5 2 stC5w 1 featOK (by decide) (by decide) (by decide) (by decide)⟩


lemma load_file_spatial_empty (cfg : SpatialConfig) (hf : cfg.features = []) :
    (load_file_spatial cfg).error = some PyError.nameError := by
  have hlen : cfg.features.length = 0 := by rw [hf]; rfl
  have hloop : run_feature_loop cfg
      (load_file_spatial_job_size cfg.job_size_arg 0).1 = Except.ok initSpatialState := by
    unfold run_feature_loop
    rw [hf]
    rfl
  simp only [load_file_spatial, hlen]
  by_cases hz : (load_file_spatial_job_size cfg.job_size_arg 0).1 = 0
  · rw [if_pos hz]
    rfl
  · rw [if_neg hz]
    simp only [hloop]
    rw [if_neg (by decide)]
    rfl

lemma load_file_spatial_empty_tryError_default (cfg : SpatialConfig)
    (hf : cfg.features = []) (harg : cfg.job_size_arg = -1) :
    (load_file_spatial cfg).tryError = some PyError.zeroDivisionError := by
  have hlen : cfg.features.length = 0 := by rw [hf]; rfl
  have hjs : load_file_spatial_job_size cfg.job_size_arg 0 = (0, false) := by
    rw [harg]
    decide
  simp only [load_file_spatial, hlen, hjs]
  rfl

/-- C9: on the fatal-error exit path of `load_file` the source dataset
handle is NOT closed — the `cfgC9` run aborts with the flush exception,
`self.src.close()` (the last statement of `load_file`, not protected by
any `finally`) is never reached and no ledger row is written, even though
the comment over `load_file_spatial`'s `finally` block claims the fiona
collection is freed there; on the normal path (`cfgC9b`) the handle is
closed.  This confirms the claim's intent and exhibits the code's bug. -/
theorem C9_src_not_closed :
    (load_file cfgC9).error = some PyError.flushException
  ∧ (load_file cfgC9).src_closed = false
  ∧ (load_file cfgC9).ledger_written = false
  ∧ (load_file cfgC9b).error = none
  ∧ (load_file cfgC9b).src_closed = true := by
  decide

/-- C10: on a spatial source with zero features, `load_file` raises an
unhandled exception and writes no `load_jobs` ledger row — with the
default `job_size = -1`, `get_job_size 0 = 0` and the `job_count` line
divides by zero (the `finally` block then raises `NameError` because the
loop variable was never bound); with any positive supplied `job_size` the
`finally` block's status computation references the unbound loop
variable; hence every run that writes a ledger row has
`feature_count ≥ 1`. -/
theorem C10_empty_source :
    get_job_size 0 = 0
  ∧ (∀ cfg : SpatialConfig, cfg.features = [] → cfg.job_size_arg = -1 →
      (load_file_spatial cfg).tryError = some PyError.zeroDivisionError
      ∧ (load_file cfg).ledger_written = false)
  ∧ (∀ cfg : SpatialConfig, cfg.features = [] → 1 ≤ cfg.job_size_arg →
      (load_file_spatial cfg).error = some PyError.nameError
      ∧ (load_file cfg).ledger_written = false)
  ∧ (∀ cfg : SpatialConfig, (load_file cfg).ledger_written = true →
      1 ≤ cfg.features.length) := by
  refine ⟨by decide, ?_, ?_, ?_⟩
  · intro cfg hf harg
    refine ⟨load_file_spatial_empty_tryError_default cfg hf harg, ?_⟩
    have herr := load_file_spatial_empty cfg hf
    simp [load_file, herr]
  · intro cfg hf harg
    refine ⟨load_file_spatial_empty cfg hf, ?_⟩
    have herr := load_file_spatial_empty cfg hf
    simp [load_file, herr]
  · intro cfg hl
    by_contra hcon
    have hf : cfg.features = [] := by
      cases hcf : cfg.features with
      | nil => rfl
      | cons a l =>
        rw [hcf] at hcon
        simp at hcon
    have herr := load_file_spatial_empty cfg hf
    simp [load_file, herr] at hl

/-- Witness for C10 at the concrete empty-source runs. -/
theorem C10_empty_source_witness :
    ((load_file_spatial cfgC10a).tryError = some PyError.zeroDivisionError
      ∧ (load_file cfgC10a).ledger_written = false)
  ∧ ((load_file_spatial cfgC10b).error = some PyError.nameError
      ∧ (load_file cfgC10b).ledger_written = false)
  ∧ 1 ≤ cfgC10c.features.length :=
  ⟨C10_empty_source.2.1 cfgC10a rfl rfl,
   C10_empty_source.2.2.1 cfgC10b rfl (by decide),
   C10_empty_source.2.2.2 cfgC10c (by rfl)⟩

end BigQuery
